import Mathlib

/- Shallow embedding of the LEET orchestrator (jldantas/leet).

The definitions below are translated from the repository sources:
src/leet/base.py (job state machine, search request), src/leet/api.py
(coordinator, plugin-execution wrapper, probe scheduler, cancellation API),
src/leet/backends/cb.py (session operations) and
src/leet/plugins/process_list.py (reference plugin).

Machine integers (timestamps, intervals) are modelled as Nat seconds;
Python exceptions are modelled as explicit error values or raised flags. -/

namespace Leet

/-- Job statuses, from the LeetJobStatus enum in base.py. -/
inductive LeetJobStatus
  | pending
  | executing
  | completed
  | cancelled
  | error
deriving DecidableEq, Repr, Fintype

/-- The five trigger strings passed to the job FSM by the five transition
methods of LeetJob in base.py (pending, executing, cancel, completed, error). -/
inductive Trigger
  | pending
  | executing
  | cancel
  | completed
  | error
deriving DecidableEq, Repr, Fintype

/-- The transition table built by LeetJob. _conf_status_machine
(base.py lines 348 to 359), as ((source, trigger), dest) entries in source
order, after the dict conversion done by the FSM constructor. -/
def statusMachineTable : List ((LeetJobStatus × Trigger) × LeetJobStatus) :=
  [ ((LeetJobStatus.pending, Trigger.pending), LeetJobStatus.pending),
    ((LeetJobStatus.pending, Trigger.executing), LeetJobStatus.executing),
    ((LeetJobStatus.pending, Trigger.cancel), LeetJobStatus.cancelled),
    ((LeetJobStatus.executing, Trigger.pending), LeetJobStatus.pending),
    ((LeetJobStatus.executing, Trigger.cancel), LeetJobStatus.cancelled),
    ((LeetJobStatus.executing, Trigger.completed), LeetJobStatus.completed),
    ((LeetJobStatus.cancelled, Trigger.completed), LeetJobStatus.completed),
    ((LeetJobStatus.cancelled, Trigger.executing), LeetJobStatus.cancelled),
    ((LeetJobStatus.executing, Trigger.error), LeetJobStatus.error),
    ((LeetJobStatus.pending, Trigger.error), LeetJobStatus.error) ]

/-- The step of the job FSM, from the next method of the internal class of
base.py lines 274 to 293: the pair (current state, trigger) is looked up in the
transition dictionary; on a hit the state becomes the table entry, on a miss a
LeetError is raised before the assignment happens, so the state is unchanged.
Returns the new state together with a flag telling whether LeetError was
raised. -/
def fsmNext (s : LeetJobStatus) (t : Trigger) : LeetJobStatus × Bool :=
  match statusMachineTable.lookup (s, t) with
  | some d => (d, false)
  | none => (s, true)

/-- C1: the status changes exactly according to the transition table
(pending: Pending to Pending and Executing to Pending; executing: Pending to
Executing and Cancelled to Cancelled; cancel: Pending to Cancelled and
Executing to Cancelled; completed: Executing to Completed and Cancelled to
Completed; error: Pending to Error and Executing to Error), and any
(state, trigger) pair not in the table raises a LeetError and leaves the
status unchanged. -/
theorem c1_status_transitions :
    (fsmNext LeetJobStatus.pending Trigger.pending = (LeetJobStatus.pending, false)
      ∧ fsmNext LeetJobStatus.executing Trigger.pending = (LeetJobStatus.pending, false)
      ∧ fsmNext LeetJobStatus.pending Trigger.executing = (LeetJobStatus.executing, false)
      ∧ fsmNext LeetJobStatus.cancelled Trigger.executing = (LeetJobStatus.cancelled, false)
      ∧ fsmNext LeetJobStatus.pending Trigger.cancel = (LeetJobStatus.cancelled, false)
      ∧ fsmNext LeetJobStatus.executing Trigger.cancel = (LeetJobStatus.cancelled, false)
      ∧ fsmNext LeetJobStatus.executing Trigger.completed = (LeetJobStatus.completed, false)
      ∧ fsmNext LeetJobStatus.cancelled Trigger.completed = (LeetJobStatus.completed, false)
      ∧ fsmNext LeetJobStatus.pending Trigger.error = (LeetJobStatus.error, false)
      ∧ fsmNext LeetJobStatus.executing Trigger.error = (LeetJobStatus.error, false))
    ∧ (∀ s t, (s, t) ∉ statusMachineTable.map Prod.fst → fsmNext s t = (s, true)) := by
  decide

/-- Witness for C1: a concrete off-table pair, Completed with trigger
executing, raises and leaves the status unchanged. -/
theorem c1_status_transitions_witness :
    fsmNext LeetJobStatus.completed Trigger.executing = (LeetJobStatus.completed, true) :=
  c1_status_transitions.2 LeetJobStatus.completed Trigger.executing (by decide)

/-- A machine handle produced by a backend during a search, from LeetMachine
in base.py and CBMachine in backends/cb.py (which carries the sensor whose
last check-in time drives per-backend conflict resolution). -/
structure Machine where
  hostname : String
  backend_name : String
  last_checkin : Nat
deriving DecidableEq, Repr

/-- One plugin result row, a mapping with string keys (base.py run contract). -/
abbrev ResultRow := List (String × String)

/-- A job, from LeetJob in base.py: a machine plus a status machine, a start
time stamped at creation and a plugin result set once on success or error. -/
structure LeetJob where
  machine : Machine
  start_time : Nat
  status : LeetJobStatus
  plugin_result : Option (List ResultRow)
deriving DecidableEq, Repr

/-- LeetJob construction (base.py lines 308 to 326): status starts Pending,
start time is the creation instant, no result yet. -/
def newLeetJob (machine : Machine) (now : Nat) : LeetJob :=
  { machine := machine, start_time := now,
    status := LeetJobStatus.pending, plugin_result := none }

/-- One of the five transition methods of LeetJob applied to a job: the FSM
steps, and on a miss LeetError is raised with the status unchanged. -/
def LeetJob.step (j : LeetJob) (t : Trigger) : LeetJob × Bool :=
  match fsmNext j.status t with
  | (s, raised) => ({ j with status := s }, raised)

/-- What the plugin-execution attempt of a job can produce, from the
exception contract of errors.py: a normal list of rows, a LeetSessionError
carrying its stop flag (errors.py lines 17 to 23), or a LeetPluginError. -/
inductive PluginOutcome
  | ok (rows : List ResultRow)
  | sessionError (stop : Bool) (msg : String)
  | pluginError (msg : String)
deriving DecidableEq, Repr

/-- The observable effects of one run of the plugin-execution wrapper:
the job on exit, whether JOB_DONE was put on the coordinator queue, whether
the online-probe logic was immediately re-entered, and whether a LeetError
escaped the wrapper (it catches only the two Leet exception kinds). -/
structure ExecEffects where
  job : LeetJob
  jobDonePosted : Bool
  probeRearmed : Bool
  leetErrorRaised : Bool
deriving DecidableEq, Repr

/-- Leet._execute_plugin (api.py lines 287 to 322), with the session open
succeeding and the plugin outcome given: the job transitions to executing,
then on a normal return the result is stored, the job transitions to
completed and JOB_DONE is posted; on LeetSessionError with stop false the
job transitions via the pending trigger and the probe is re-entered at once
with nothing posted; on LeetSessionError with stop true the status is left
as it is and JOB_DONE is posted; on LeetPluginError the job transitions via
the error trigger, the single row error_message result is stored and
JOB_DONE is posted. A LeetError raised by a transition escapes uncaught. -/
def execute_plugin (j : LeetJob) (outcome : PluginOutcome) : ExecEffects :=
  match j.step Trigger.executing with
  | (j1, raised1) =>
    if raised1 then
      { job := j1, jobDonePosted := false, probeRearmed := false, leetErrorRaised := true }
    else
      match outcome with
      | PluginOutcome.ok rows =>
        let j2 := { j1 with plugin_result := some rows }
        match j2.step Trigger.completed with
        | (j3, raised2) =>
          if raised2 then
            { job := j2, jobDonePosted := false, probeRearmed := false, leetErrorRaised := true }
          else
            { job := j3, jobDonePosted := true, probeRearmed := false, leetErrorRaised := false }
      | PluginOutcome.sessionError stop _ =>
        if stop then
          { job := j1, jobDonePosted := true, probeRearmed := false, leetErrorRaised := false }
        else
          match j1.step Trigger.pending with
          | (j2, raised2) =>
            if raised2 then
              { job := j1, jobDonePosted := false, probeRearmed := false, leetErrorRaised := true }
            else
              { job := j2, jobDonePosted := false, probeRearmed := true, leetErrorRaised := false }
      | PluginOutcome.pluginError msg =>
        match j1.step Trigger.error with
        | (j2, raised2) =>
          if raised2 then
            { job := j1, jobDonePosted := false, probeRearmed := false, leetErrorRaised := true }
          else
            { job := { j2 with plugin_result := some [[(("error_message" : String), msg)]] },
              jobDonePosted := true, probeRearmed := false, leetErrorRaised := false }

/-- C2: in the plugin-execution wrapper, for a job picked up from the probe
scheduler (status Pending on entry, so Executing when the plugin raises):
LeetSessionError with stop false sends the job back to Pending and re-enters
the online-probe at once with no JOB_DONE; LeetSessionError with stop true
leaves the status as it is (Executing) and posts JOB_DONE; LeetPluginError
sends the job to Error, stores the single row error_message result and posts
JOB_DONE. -/
theorem c2_execute_plugin_errors (j : LeetJob) (msg : String)
    (h : j.status = LeetJobStatus.pending) :
    (execute_plugin j (PluginOutcome.sessionError false msg)).job.status = LeetJobStatus.pending
    ∧ (execute_plugin j (PluginOutcome.sessionError false msg)).probeRearmed = true
    ∧ (execute_plugin j (PluginOutcome.sessionError false msg)).jobDonePosted = false
    ∧ (execute_plugin j (PluginOutcome.sessionError false msg)).job.plugin_result = j.plugin_result
    ∧ (execute_plugin j (PluginOutcome.sessionError true msg)).job.status = LeetJobStatus.executing
    ∧ (execute_plugin j (PluginOutcome.sessionError true msg)).jobDonePosted = true
    ∧ (execute_plugin j (PluginOutcome.sessionError true msg)).probeRearmed = false
    ∧ (execute_plugin j (PluginOutcome.pluginError msg)).job.status = LeetJobStatus.error
    ∧ (execute_plugin j (PluginOutcome.pluginError msg)).job.plugin_result
        = some [[(("error_message" : String), msg)]]
    ∧ (execute_plugin j (PluginOutcome.pluginError msg)).jobDonePosted = true := by
  obtain ⟨m, st, sl, r⟩ := j
  simp only at h
  subst h
  exact ⟨rfl, rfl, rfl, rfl, rfl, rfl, rfl, rfl, rfl, rfl⟩

/-- A concrete machine used by witnesses and counterexamples. -/
def sampleMachine : Machine :=
  { hostname := ("H1"), backend_name := ("CB-b1"), last_checkin := 0 }

/-- Witness for C2 at a concrete pending job and message. -/
theorem c2_execute_plugin_errors_witness :
    (execute_plugin (newLeetJob sampleMachine 0)
        (PluginOutcome.pluginError ("boom"))).job.status = LeetJobStatus.error :=
  (c2_execute_plugin_errors (newLeetJob sampleMachine 0) ("boom") rfl).2.2.2.2.2.2.2.1

/-- Leet._search_ready (api.py lines 253 to 272): one LeetJob is created and
scheduled for every entry of found_machines, in list order; the source marks
conflict handling as a TODO, so nothing deduplicates hostnames resolved by
more than one backend. -/
def search_ready_jobs (found : List Machine) (now : Nat) : List LeetJob :=
  found.map (fun m => newLeetJob m now)

/-- The machine handle hostname H1 resolved by backend CB-b1, check-in 100. -/
def machineB1 : Machine :=
  { hostname := ("H1"), backend_name := ("CB-b1"), last_checkin := 100 }

/-- The machine handle hostname H1 resolved by backend CB-b2, check-in 200. -/
def machineB2 : Machine :=
  { hostname := ("H1"), backend_name := ("CB-b2"), last_checkin := 200 }

/-- C3 evaluated at the failing input: when the same hostname is resolved by
two backends (CB-b2 with the more recent check-in), the coordinator creates
two jobs, one per handle, instead of the single job with the CB-b2 handle
that the claim demands; no handle is dropped. -/
theorem c3_duplicate_hostname_two_jobs :
    search_ready_jobs [machineB1, machineB2] 0
      = [newLeetJob machineB1 0, newLeetJob machineB2 0]
    ∧ (search_ready_jobs [machineB1, machineB2] 0).length = 2 :=
  ⟨rfl, rfl⟩

/-- The online-probe interval, 20 seconds (api.py line 137). -/
def pollInterval : Nat := 20

/-- The job expiry timeout, 3 days in seconds (api.py line 140). -/
def jobExpiry : Nat := 259200

/-- Leet._can_reschedule_job (api.py lines 348 to 361): true when the job is
not Cancelled and the current time is strictly before start time plus the
expiry timeout. -/
def can_reschedule_job (j : LeetJob) (now : Nat) : Bool :=
  decide (j.status ≠ LeetJobStatus.cancelled) && decide (now < j.start_time + jobExpiry)

/-- What one firing of the online-probe callback does with a job. -/
inductive ProbeAction
  | submitToPool
  | rearmProbe (runDate : Nat)
  | postJobDone
deriving DecidableEq, Repr

/-- Leet._is_machine_ready (api.py lines 363 to 380): after the refresh, if
the machine can connect the job is submitted to the backend pool; otherwise,
if it can still be rescheduled, the probe is re-armed at now plus the poll
interval; otherwise JOB_DONE is posted with the job exactly as it is (the
source leaves the status advance as a TODO, so no status change happens). -/
def is_machine_ready (canConnect : Bool) (j : LeetJob) (now : Nat) : ProbeAction × LeetJob :=
  if canConnect then (ProbeAction.submitToPool, j)
  else if can_reschedule_job j now then (ProbeAction.rearmProbe (now + pollInterval), j)
  else (ProbeAction.postJobDone, j)

/-- A concrete pending job created at time 0 whose machine stays offline. -/
def offlineJob : LeetJob := newLeetJob sampleMachine 0

/-- C5 evaluated on a job whose machine stays offline: while within the
expiry window the probe is re-armed at now plus 20 seconds as claimed (shown
at now equal 100 and at the last eligible instant), but once past expiry the
job is posted as JOB_DONE completely unchanged, still Pending, not advanced
to Error as the claim states. -/
theorem c5_offline_expiry_keeps_status :
    is_machine_ready false offlineJob 100 = (ProbeAction.rearmProbe 120, offlineJob)
    ∧ is_machine_ready false offlineJob (jobExpiry - 1)
        = (ProbeAction.rearmProbe (jobExpiry - 1 + pollInterval), offlineJob)
    ∧ is_machine_ready false offlineJob jobExpiry = (ProbeAction.postJobDone, offlineJob)
    ∧ offlineJob.status = LeetJobStatus.pending
    ∧ (offlineJob.status == LeetJobStatus.error) = false :=
  ⟨rfl, rfl, rfl, rfl, rfl⟩

/-- A search request, from LeetSearchRequest in base.py lines 174 to 223:
a ready flag, the expected backend count, the set of backends that reported
completion (kept duplicate free, as a Python set), the append-only found
machine list, and the optional completion time. -/
structure LeetSearchRequest where
  hostnames : List String
  ready : Bool
  backend_quantity : Nat
  completed_backends : List String
  found_machines : List Machine
  end_time : Option Nat
deriving DecidableEq, Repr

/-- LeetSearchRequest construction (base.py lines 175 to 190) with the
default backend_numbers of 0, as used by Leet.schedule_jobs. -/
def newSearchRequest (hostnames : List String) : LeetSearchRequest :=
  { hostnames := hostnames, ready := false, backend_quantity := 0,
    completed_backends := [], found_machines := [], end_time := none }

/-- LeetSearchRequest.add_completed_backend (base.py lines 197 to 204):
does nothing when already ready; otherwise adds the backend name to the set
and, when the set size reaches backend_quantity, stamps end_time and flips
ready to true. -/
def LeetSearchRequest.add_completed_backend (s : LeetSearchRequest) (b : String) (now : Nat) :
    LeetSearchRequest :=
  if s.ready then s
  else
    let completed := if b ∈ s.completed_backends then s.completed_backends
      else b :: s.completed_backends
    if s.backend_quantity ≤ completed.length then
      { s with completed_backends := completed, end_time := some now, ready := true }
    else
      { s with completed_backends := completed }

/-- LeetSearchRequest.add_found_machines (base.py lines 206 to 209): appends
to the found machine list, but only while the request is not ready. -/
def LeetSearchRequest.add_found_machines (s : LeetSearchRequest) (ms : List Machine) :
    LeetSearchRequest :=
  if s.ready then s else { s with found_machines := s.found_machines ++ ms }

/-- Leet._expire_search (api.py lines 330 to 345): when the timer fires, a
request that is not yet ready is marked ready (and re-posted as
SEARCH_READY); a request already ready is left alone. -/
def expire_search (s : LeetSearchRequest) : LeetSearchRequest :=
  if s.ready then s else { s with ready := true }

/-- The three mutations a search request can undergo after creation. -/
inductive SearchOp
  | addCompleted (b : String) (now : Nat)
  | addFound (ms : List Machine)
  | expire
deriving Repr

/-- Application of one mutation to a search request. -/
def applySearchOp (s : LeetSearchRequest) (op : SearchOp) : LeetSearchRequest :=
  match op with
  | SearchOp.addCompleted b now => s.add_completed_backend b now
  | SearchOp.addFound ms => s.add_found_machines ms
  | SearchOp.expire => expire_search s

/-- Application of a sequence of mutations, in order. -/
def applySearchOps (s : LeetSearchRequest) (ops : List SearchOp) : LeetSearchRequest :=
  ops.foldl applySearchOp s

/-- A ready search request absorbs every mutation unchanged. -/
theorem applySearchOp_of_ready (s : LeetSearchRequest) (op : SearchOp)
    (h : s.ready = true) : applySearchOp s op = s := by
  cases op <;>
    simp [applySearchOp, LeetSearchRequest.add_completed_backend,
      LeetSearchRequest.add_found_machines, expire_search, h]

/-- C4: the ready flag of a search request is monotonic (once true, every
further sequence of mutations leaves it true and leaves the found machine
list frozen); from a non-ready request, add_completed_backend flips ready
exactly when the completed set reaches backend_quantity, add_found_machines
never flips it, and the expiry firing always flips it; and once ready,
add_found_machines leaves the found machine list unchanged. -/
theorem c4_search_ready_monotone_frozen :
    (∀ (s : LeetSearchRequest) (ops : List SearchOp), s.ready = true →
        (applySearchOps s ops).ready = true
        ∧ (applySearchOps s ops).found_machines = s.found_machines)
    ∧ (∀ (s : LeetSearchRequest) (b : String) (now : Nat), s.ready = false →
        ((s.add_completed_backend b now).ready = true
          ↔ s.backend_quantity ≤
              (if b ∈ s.completed_backends then s.completed_backends
                else b :: s.completed_backends).length))
    ∧ (∀ (s : LeetSearchRequest) (ms : List Machine), s.ready = false →
        (s.add_found_machines ms).ready = false)
    ∧ (∀ (s : LeetSearchRequest), s.ready = false → (expire_search s).ready = true)
    ∧ (∀ (s : LeetSearchRequest) (ms : List Machine), s.ready = true →
        (s.add_found_machines ms).found_machines = s.found_machines) := by
  refine ⟨?_, ?_, ?_, ?_, ?_⟩
  · intro s ops h
    induction ops generalizing s with
    | nil => exact ⟨h, rfl⟩
    | cons op rest ih =>
      have habs : applySearchOp s op = s := applySearchOp_of_ready s op h
      simpa [applySearchOps, habs] using ih s h
  · intro s b now h
    by_cases hq : s.backend_quantity ≤
        (if b ∈ s.completed_backends then s.completed_backends
          else b :: s.completed_backends).length <;>
      simp [LeetSearchRequest.add_completed_backend, h, hq]
  · intro s ms h
    simp [LeetSearchRequest.add_found_machines, h]
  · intro s h
    simp [expire_search, h]
  · intro s ms h
    simp [LeetSearchRequest.add_found_machines, h]

/-- Witness for C4: a concrete ready request run through a mutation sequence
keeps ready true and its found machine list frozen. -/
theorem c4_search_ready_monotone_frozen_witness :
    (applySearchOps
        { hostnames := [("H1")], ready := true, backend_quantity := 1,
          completed_backends := [("CB-b1")], found_machines := [machineB1],
          end_time := some 5 }
        [SearchOp.addFound [machineB2], SearchOp.addCompleted ("CB-b2") 9,
          SearchOp.expire]).ready = true
    ∧ (applySearchOps
        { hostnames := [("H1")], ready := true, backend_quantity := 1,
          completed_backends := [("CB-b1")], found_machines := [machineB1],
          end_time := some 5 }
        [SearchOp.addFound [machineB2], SearchOp.addCompleted ("CB-b2") 9,
          SearchOp.expire]).found_machines = [machineB1] :=
  c4_search_ready_monotone_frozen.1
    { hostnames := [("H1")], ready := true, backend_quantity := 1,
      completed_backends := [("CB-b1")], found_machines := [machineB1],
      end_time := some 5 }
    [SearchOp.addFound [machineB2], SearchOp.addCompleted ("CB-b2") 9,
      SearchOp.expire] rfl

/-- Leet.run handling of SEARCH_BACKEND (api.py lines 230 to 235): the
request is stamped with the number of configured backends, the search is
fanned out to each of them (none when zero are configured, so nothing ever
calls add_completed_backend or add_found_machines), and the expiry timer is
armed at now plus the 30 second search timeout. -/
def search_backend_step (backendCount : Nat) (s : LeetSearchRequest) : LeetSearchRequest :=
  { s with backend_quantity := backendCount }

/-- C7 counterexample: a search submitted with zero backends configured is
not ready immediately after the coordinator processes it; it only becomes
ready when the 30 second expiry timer fires. -/
theorem c7_not_immediately_ready :
    (search_backend_step 0 (newSearchRequest [("H1")])).ready = false :=
  rfl

/-- C7 amended: with zero backends configured a search stays non-ready until
the expiry timer fires, at which point it becomes ready with an empty found
machine list, so zero jobs are created, hence no online-probe is armed and
nothing is ever published for it. -/
theorem c7_zero_backends_ready_at_expiry (hostnames : List String) (now : Nat) :
    (search_backend_step 0 (newSearchRequest hostnames)).ready = false
    ∧ (expire_search (search_backend_step 0 (newSearchRequest hostnames))).ready = true
    ∧ search_ready_jobs
        (expire_search (search_backend_step 0 (newSearchRequest hostnames))).found_machines
        now = []
    ∧ (search_ready_jobs
        (expire_search (search_backend_step 0 (newSearchRequest hostnames))).found_machines
        now).length = 0 := by
  refine ⟨rfl, ?_, ?_, ?_⟩ <;>
    simp [search_backend_step, newSearchRequest, expire_search, search_ready_jobs]

/-- The session operations a plugin can issue, from the LeetSession
capability set of base.py. -/
inductive SessionOp
  | listProcesses
  | getFile (path : String)
  | startProcess (cmd : String)
deriving DecidableEq, Repr

/-- The run method of the process_list plugin (plugins/process_list.py lines
17 to 29): it stores session.list_processes() as data, then also calls
session.get_file on a hard-coded path and session.start_process (printing
both), and returns data. The returned value together with the session
operations issued, in call order. -/
def process_list_run (procs : List ResultRow) : List ResultRow × List SessionOp :=
  (procs,
    [SessionOp.listProcesses,
      SessionOp.getFile ("c:\\song.txt"),
      SessionOp.startProcess ("cmd /c hostname")])

/-- C8 evaluated against the source: the returned rows are exactly the
list_processes result (the passthrough half of the claim holds), but the run
is not free of other session operations: it also issues a get_file of the
hard-coded path and a start_process, so the operation list differs from the
single listProcesses call the claim allows. -/
theorem c8_process_list_extra_ops (procs : List ResultRow) :
    (process_list_run procs).1 = procs
    ∧ (process_list_run procs).2 ≠ [SessionOp.listProcesses]
    ∧ SessionOp.getFile ("c:\\song.txt") ∈ (process_list_run procs).2
    ∧ SessionOp.startProcess ("cmd /c hostname") ∈ (process_list_run procs).2 := by
  refine ⟨rfl, by simp [process_list_run], by simp [process_list_run],
    by simp [process_list_run]⟩

/-- The control messages of the coordinator queue (api.py lines 86 to 102). -/
inductive LTControl
  | stop
  | searchBackend (s : LeetSearchRequest)
  | searchReady (s : LeetSearchRequest)
  | jobDone (j : LeetJob)
deriving Repr

/-- The coordinator-owned state touched by the public cancellation API: the
live job table, the internal control queue and the out-queue handed to the
consumer (api.py lines 117 to 145). -/
structure LeetState where
  job_list : List LeetJob
  queue : List LTControl
  job_notification : List LeetJob
deriving Repr

/-- Leet.cancel_job (api.py lines 397 to 404): the body is pass, the queued
CANCEL_JOB message is commented out; Python returns None. -/
def cancel_job (st : LeetState) (job : LeetJob) : Option Unit × LeetState :=
  (none, st)

/-- Leet.cancel_by_id (api.py lines 406 to 417): the body is pass. -/
def cancel_by_id (st : LeetState) (jobId : Nat) : Option Unit × LeetState :=
  (none, st)

/-- Leet.cancel_all_jobs (api.py lines 419 to 423): the body is pass. -/
def cancel_all_jobs (st : LeetState) : Option Unit × LeetState :=
  (none, st)

/-- C9: the three public cancellation operations return None and leave the
whole coordinator state untouched, job table, control queue and out-queue
included, so in particular no job status changes and no job ever reaches
Cancelled through this API. -/
theorem c9_cancel_noops (st : LeetState) (job : LeetJob) (jobId : Nat) :
    cancel_job st job = (none, st)
    ∧ cancel_by_id st jobId = (none, st)
    ∧ cancel_all_jobs st = (none, st)
    ∧ (cancel_job st job).2.job_list.map LeetJob.status = st.job_list.map LeetJob.status
    ∧ (cancel_by_id st jobId).2.job_list = st.job_list
    ∧ (cancel_all_jobs st).2.queue = st.queue
    ∧ (cancel_all_jobs st).2.job_notification = st.job_notification :=
  ⟨rfl, rfl, rfl, rfl, rfl, rfl, rfl⟩

/-- The identity a Python object carries for the purpose of the custom
equality methods of base.py; ids are uuid4 values, modelled as Nat. -/
structure LeetJobObj where
  id : Nat
deriving DecidableEq, Repr

/-- A LeetSearchRequest object as seen by its own equality method. -/
structure SearchRequestObj where
  id : Nat
deriving DecidableEq, Repr

/-- The possible dynamic types of the right-hand operand of the equality. -/
inductive PyValue
  | job (j : LeetJobObj)
  | search (s : SearchRequestObj)
deriving DecidableEq, Repr

/-- LeetSearchRequest eq (base.py lines 211 to 215): isinstance of LeetJob
compares ids; any other operand, a LeetSearchRequest included, gives False. -/
def searchRequestEq (s : SearchRequestObj) (other : PyValue) : Bool :=
  match other with
  | PyValue.job j => s.id == j.id
  | PyValue.search _ => false

/-- C10: equality on LeetSearchRequest is never reflexive over its own type;
for every pair of search request objects, the first compared against the
second gives False, the self comparison included, while against a LeetJob it
compares ids. -/
theorem c10_search_request_eq_never_reflexive
    (s1 s2 : SearchRequestObj) (j : LeetJobObj) :
    searchRequestEq s1 (PyValue.search s2) = false
    ∧ searchRequestEq s1 (PyValue.search s1) = false
    ∧ searchRequestEq s1 (PyValue.job j) = (s1.id == j.id) :=
  ⟨rfl, rfl, rfl⟩

/-- CBSession.exists (backends/cb.py lines 145 to 166), at path-component
level: the remote filesystem is abstracted by fs, giving existence of a
component path; a single-component path (a bare root such as c:) raises
LeetCommandError before anything is queried, exactly as the source does on
len(split_path) == 1. -/
def exists_fs (fs : List String → Bool) (path : List String) : Except String Bool :=
  if path.length = 1 then Except.error ("LeetCommandError")
  else Except.ok (fs path)

/-- The create-everything tail of CBSession.make_dir (backends/cb.py lines
133 to 139): once a component is found missing, check has been popped back
and every remaining component is appended and created in turn; returns the
created component paths in issue order. -/
def createAll (c : List String) (parts : List String) : List (List String) :=
  match parts with
  | [] => [c]
  | p :: rest => c :: createAll (c ++ [p]) rest

/-- The recursive walk of CBSession.make_dir (backends/cb.py lines 125 to
139): components are appended to check left to right; while each extended
path exists the walk advances; at the first missing one the loop breaks and
everything from that component onward is created. Returns the created
component paths (and propagates a raise out of exists, which cannot fire
here because check is never empty). -/
def makeDirLoop (fs : List String → Bool) (check : List String) (parts : List String) :
    Except String (List (List String)) :=
  match parts with
  | [] => Except.ok []
  | p :: rest =>
    match exists_fs fs (check ++ [p]) with
    | Except.error e => Except.error e
    | Except.ok true => makeDirLoop fs (check ++ [p]) rest
    | Except.ok false => Except.ok (createAll (check ++ [p]) rest)

/-- CBSession.make_dir (backends/cb.py lines 111 to 143) at path-component
level: the path arrives as its separator split (a trailing separator shows
up as a trailing empty component and is dropped); the first component, the
root, is set aside unchecked; with recursive true the walk above runs, with
recursive false a single create of the whole original path is issued.
Popping from an empty component list is a Python IndexError. -/
def make_dir (fs : List String → Bool) (parts0 : List String) (recursive : Bool) :
    Except String (List (List String)) :=
  let parts := if parts0.getLast? = some ("") then parts0.dropLast else parts0
  match parts with
  | [] => Except.error ("IndexError")
  | root :: rest =>
    if recursive then makeDirLoop fs [root] rest
    else Except.ok [parts0]

/-- The successive strict component-extensions of check along parts: the
full chain of intermediate paths a recursive make_dir inspects. -/
def chainPaths (check : List String) (parts : List String) : List (List String) :=
  match parts with
  | [] => []
  | p :: rest => (check ++ [p]) :: chainPaths (check ++ [p]) rest

/-- The create-everything tail lists its starting path followed by the whole
remaining chain. -/
theorem createAll_eq_cons (c : List String) (parts : List String) :
    createAll c parts = c :: chainPaths c parts := by
  induction parts generalizing c with
  | nil => rfl
  | cons p rest ih => simp [createAll, chainPaths, ih]

/-- Under a downward-closed filesystem, every chain path extending a missing
path is itself missing. -/
theorem chainPaths_all_missing (fs : List String → Bool)
    (hdc : ∀ c x, fs (c ++ [x]) = true → fs c = true)
    (parts : List String) :
    ∀ c, fs c = false → ∀ q ∈ chainPaths c parts, fs q = false := by
  induction parts with
  | nil => intro c _ q hq; simp [chainPaths] at hq
  | cons p rest ih =>
    intro c hc q hq
    have hstep : fs (c ++ [p]) = false := by
      cases hfs : fs (c ++ [p]) with
      | false => rfl
      | true => exact absurd (hdc c p hfs) (by simp [hc])
    simp only [chainPaths, List.mem_cons] at hq
    cases hq with
    | inl h => exact h ▸ hstep
    | inr h => exact ih (c ++ [p]) hstep q h

/-- Under a downward-closed filesystem, the recursive walk creates exactly
the missing paths of the inspection chain: the suffix starting at the first
component whose path does not exist. -/
theorem makeDirLoop_eq_filter (fs : List String → Bool)
    (hdc : ∀ c x, fs (c ++ [x]) = true → fs c = true)
    (parts : List String) :
    ∀ check, check ≠ [] →
      makeDirLoop fs check parts
        = Except.ok ((chainPaths check parts).filter (fun q => !fs q)) := by
  induction parts with
  | nil => intro check _; rfl
  | cons p rest ih =>
    intro check hne
    have hlen : (check ++ [p]).length ≠ 1 := by
      cases check with
      | nil => exact absurd rfl hne
      | cons a as => simp [List.length_append]
    cases hfs : fs (check ++ [p]) with
    | true =>
      have ihx := ih (check ++ [p]) (by simp)
      simp [makeDirLoop, exists_fs, hlen, hne, hfs, chainPaths, ihx]
    | false =>
      have hall : ∀ q ∈ chainPaths (check ++ [p]) rest, fs q = false :=
        chainPaths_all_missing fs hdc rest (check ++ [p]) hfs
      have hfilter : (chainPaths (check ++ [p]) rest).filter (fun q => !fs q)
          = chainPaths (check ++ [p]) rest := by
        apply List.filter_eq_self.mpr
        intro q hq
        simp [hall q hq]
      simp [makeDirLoop, exists_fs, hlen, hne, hfs, chainPaths, hfilter,
        createAll_eq_cons]

/-- C6 counterexample: a root-only (single-segment) path is not refused by
make_dir with recursive true: the walk has nothing to inspect, no create is
issued and the call returns normally instead of raising. -/
theorem c6_root_only_not_refused :
    make_dir (fun _ => true) [("c:")] true = Except.ok [] :=
  rfl

/-- C6 amended: for every path and downward-closed filesystem, make_dir with
recursive true walks the components left to right and issues creates exactly
for the missing suffix of the inspection chain: no create for any component
path that exists, every created path missing; and a root-only path yields no
create and no error (it is exists, not make_dir, that refuses bare roots). -/
theorem c6_make_dir_missing_suffix (fs : List String → Bool)
    (root : String) (rest : List String)
    (hdc : ∀ c x, fs (c ++ [x]) = true → fs c = true)
    (hlast : (root :: rest).getLast? ≠ some ("")) :
    make_dir fs (root :: rest) true
      = Except.ok ((chainPaths [root] rest).filter (fun q => !fs q))
    ∧ (∀ q ∈ (chainPaths [root] rest).filter (fun q => !fs q), fs q = false)
    ∧ (∀ r : String, r ≠ ("") → make_dir fs [r] true = Except.ok ([] : List (List String))) := by
  refine ⟨?_, ?_, ?_⟩
  · have hif : ((root :: rest).getLast? = some ("")) = False := by
      simp [hlast]
    simp only [make_dir, hif, if_false]
    exact makeDirLoop_eq_filter fs hdc rest [root] (by simp)
  · intro q hq
    have := List.of_mem_filter hq
    simpa using this
  · intro r hr
    simp [make_dir, hr, makeDirLoop]

/-- Witness for C6 at a concrete path and filesystem: on the windows path
c: users bob over a filesystem where only paths of at most one component
exist, both chain paths are missing and both are created, in order. -/
theorem c6_make_dir_missing_suffix_witness :
    make_dir (fun p => decide (p.length ≤ 1)) [("c:"), ("users"), ("bob")] true
      = Except.ok [[("c:"), ("users")], [("c:"), ("users"), ("bob")]] := by
  have h := c6_make_dir_missing_suffix (fun p => decide (p.length ≤ 1))
    ("c:") [("users"), ("bob")]
    (by
      intro c x hcx
      simp only [decide_eq_true_eq, List.length_append] at hcx ⊢
      omega)
    (by decide)
  rw [h.1]
  rfl

end Leet
